import Mathlib

/-!
Shallow embedding of the Brave web-search connector
(source file src/python/semantic_kernel/connectors/brave.py) together with
proofs of the properties its design specification states about it.

Conventions used throughout:
* Python dicts are insertion-ordered association lists; assignment
  overwrites an existing key in place and otherwise appends.
* The async generators of the source are embedded as the lists of the
  values they yield, in order.
* Raised exceptions are embedded as the error side of Except; the outer
  HTTP transport is an explicit environment function from requests to
  outcomes, and each search function additionally returns the list of
  requests it actually issued.
-/

namespace BraveConnector

/-- Source constant DEFAULT_URL (line 35). -/
def DEFAULT_URL : String := "https://api.search.brave.com/res/v1/web/search"

/-- Source constant QUERY_PARAMETERS (lines 36-45): the allow-list of
filter field names the connector accepts. -/
def QUERY_PARAMETERS : List String :=
  ["country", "search_lang", "ui_lang", "safesearch", "text_decorations",
   "spellcheck", "result_filter", "units"]

/-- A value of a thumbnail dictionary, which the source types as
a dict from str to str-or-bool (line 81). -/
inductive StrOrBool
  | str (s : String)
  | bool (b : Bool)
  deriving DecidableEq

/-- Source model BraveWebPage (lines 75-88): every field optional,
defaulting to none. -/
structure BraveWebPage where
  type : Option String := none
  title : Option String := none
  url : Option String := none
  thumbnail : Option (List (String × StrOrBool)) := none
  description : Option String := none
  age : Option String := none
  language : Option String := none
  family_friendly : Option Bool := none
  extra_snippets : Option (List String) := none
  meta_ur : Option (List (String × String)) := none
  source : Option String := none
  deriving DecidableEq

/-- Source model BraveWebPages (lines 92-97). -/
structure BraveWebPages where
  type : Option String := some "webpage"
  family_friendly : Option Bool := none
  results : List BraveWebPage := []
  deriving DecidableEq

/-- Source model BraveSearchResponse (lines 101-106); query_context is a
dict decoded from the JSON key "query" and web_pages from the key "web". -/
structure BraveSearchResponse where
  type : String := "search"
  query_context : List (String × String) := []
  web_pages : Option BraveWebPages := none
  deriving DecidableEq

/-- Python dict lookup d.get(k) on an insertion-ordered association list. -/
def dict_get {α : Type} (d : List (String × α)) (k : String) : Option α :=
  (d.find? (fun p => p.1 == k)).map (fun p => p.2)

/-- Python dict assignment d[k] = v: overwrite the key in place when it is
present, otherwise append the new entry at the end. -/
def dict_set {α : Type} (d : List (String × α)) (k : String) (v : α) :
    List (String × α) :=
  if d.any (fun p => p.1 == k) then
    d.map (fun p => if p.1 == k then (k, v) else p)
  else d ++ [(k, v)]

/-- Modelled from the spec: a literal operand of a predicate expression
(spec section 4.1: strings, numbers, booleans). The concrete literal nodes
come from Python ast.parse, which is outside src/. -/
inductive FilterLit
  | str (s : String)
  | int (n : Int)
  | bool (b : Bool)
  deriving DecidableEq

/-- Modelled from the spec: the abstract syntax of one predicate
expression (spec section 4.1): equality of a field against a literal,
membership of a field in a literal list, conjunction, and a marker for any
other construct (disjunction, calls, extra parameters, ...), which the
parser rejects. The concrete parser, SearchLambdaVisitor of the module
_search_shared together with Python ast.parse, is not under src/. -/
inductive FilterExpr
  | eq (field : String) (value : FilterLit)
  | mem (field : String) (values : List FilterLit)
  | conj (left right : FilterExpr)
  | unsupported (construct : String)
  deriving DecidableEq

/-- Modelled from the spec: stringification of a literal operand (spec
section 4.1 emits the stringified literal). -/
def lit_str : FilterLit → String
  | .str s => s
  | .int n => toString n
  | .bool b => if b then "True" else "False"

/-- Modelled from the spec: the visitor walk over one predicate expression
(spec section 4.1). An equality comparison emits one pair; a membership
comparison emits one pair per list element, in order; a conjunction emits
the concatenation; a field outside the allow-list or an unsupported
construct fails the whole parse of that expression. -/
def visit_expr (valid_parameters : List String) :
    FilterExpr → Except String (List (String × String))
  | .eq field value =>
      if valid_parameters.contains field then .ok [(field, lit_str value)]
      else .error ("disallowed field: " ++ field)
  | .mem field values =>
      if valid_parameters.contains field then
        .ok (values.map (fun v => (field, lit_str v)))
      else .error ("disallowed field: " ++ field)
  | .conj left right => do
      let l ← visit_expr valid_parameters left
      let r ← visit_expr valid_parameters right
      return l ++ r
  | .unsupported construct => .error ("unsupported construct: " ++ construct)

/-- Source method _parse_filter_lambda (lines 257-264) composed with the
spec-modelled visitor: parse one expression against the allow-list
QUERY_PARAMETERS. The source's list of one-entry dicts is flattened into a
list of pairs, which is how the caller consumes it (lines 275-277). -/
def parse_filter_lambda (filter_lambda : FilterExpr) :
    Except String (List (String × String)) :=
  visit_expr QUERY_PARAMETERS filter_lambda

/-- The caller-supplied filter argument: absent, a single expression, or a
list of expressions (the framework type OptionalOneOrList). -/
inductive FilterInput
  | none
  | one (f : FilterExpr)
  | many (fs : List FilterExpr)
  deriving DecidableEq

/-- The fields of the framework SearchOptions that the connector reads,
with the defaults of the search method (lines 149-157). -/
structure SearchOptions where
  top : Int := 5
  skip : Int := 0
  include_total_count : Bool := false
  filter : FilterInput := .none
  deriving DecidableEq

/-- Python truthiness of options.filter at line 268: None and the empty
list are falsy, so the filter loop is skipped for them. -/
def filter_falsy : FilterInput → Bool
  | .none => true
  | .one _ => false
  | .many fs => fs.isEmpty

/-- Lines 270-272: normalize the filter input into a list, wrapping a
single expression into a one-element list. -/
def filter_list : FilterInput → List FilterExpr
  | .none => []
  | .one f => [f]
  | .many fs => fs

/-- A request-parameter value, a string or an integer (line 267). -/
inductive ParamValue
  | str (s : String)
  | int (n : Int)
  deriving DecidableEq

/-- Line 267: the base parameter dict with q (Python query or the empty
string), count and offset. -/
def base_params (query : String) (options : SearchOptions) :
    List (String × ParamValue) :=
  [("q", .str (if query == "" then "" else query)),
   ("count", .int options.top),
   ("offset", .int options.skip)]

/-- Lines 273-280, the body of the per-filter loop: on a successful parse,
fold the parsed pairs into the parameter dict; on any parse failure,
record a warning (the offending filter and the error text, line 279) and
continue with the accumulator unchanged. -/
def assemble_step (parse : FilterExpr → Except String (List (String × String)))
    (acc : List (String × ParamValue) × List (FilterExpr × String))
    (f : FilterExpr) :
    List (String × ParamValue) × List (FilterExpr × String) :=
  match parse f with
  | .ok ds => (ds.foldl (fun a d => dict_set a d.1 (.str d.2)) acc.1, acc.2)
  | .error exc => (acc.1, acc.2 ++ [(f, exc)])

/-- Source method _build_request_parameters (lines 266-281), parameterized
by the parse routine it calls (the method self._parse_filter_lambda).
Returns the assembled parameter dict together with the warnings logged for
the filters that failed to parse. -/
def build_request_parameters
    (parse : FilterExpr → Except String (List (String × String)))
    (query : String) (options : SearchOptions) :
    List (String × ParamValue) × List (FilterExpr × String) :=
  let params := base_params query options
  if filter_falsy options.filter then (params, [])
  else (filter_list options.filter).foldl (assemble_step parse) (params, [])

/-- The cause attached to a wrapped service error: one of the three
exception classes caught at lines 233-241. -/
inductive NetworkError
  | httpStatus (msg : String)
  | request (msg : String)
  | other (msg : String)
  deriving DecidableEq

/-- A raised ServiceInvalidRequestError, carrying the original exception
when the raise had a from-clause. -/
inductive ServiceError
  | invalidRequest (msg : String) (cause : Option NetworkError)
  deriving DecidableEq

/-- Source method _validate_options (lines 243-252). -/
def validate_options (options : SearchOptions) : Except ServiceError Unit :=
  if options.top ≤ 0 then
    .error (.invalidRequest "count value must be greater than 0." none)
  else if options.top ≥ 21 then
    .error (.invalidRequest "count value must be less than 21." none)
  else if options.skip < 0 then
    .error (.invalidRequest "offset must be greater than or equal to 0." none)
  else if options.skip > 9 then
    .error (.invalidRequest "offset must be less than 10." none)
  else .ok ()

/-- One outbound HTTP request as the connector issues it at line 230. -/
structure Request where
  method : String
  url : String
  headers : List (String × String)
  params : List (String × ParamValue)
  deriving DecidableEq

/-- The transport outcome of one request: a successfully decoded body, or
one of the three failure classes caught at lines 233-241 (HTTPStatusError,
RequestError, any other Exception). -/
inductive NetworkOutcome
  | success (body : BraveSearchResponse)
  | httpStatusError (msg : String)
  | requestError (msg : String)
  | otherError (msg : String)
  deriving DecidableEq

/-- Lines 224-227: the headers dict of the outbound request. The source
writes the literal keys "X-Subscription-Token" and "user_agent"; the
user-agent value (the constant SEMANTIC_KERNEL_USER_AGENT, defined outside
src/) is taken as a parameter. -/
def request_headers (api_key user_agent : String) : List (String × String) :=
  [("X-Subscription-Token", api_key), ("user_agent", user_agent)]

/-- Source method _get_url (lines 254-255). -/
def get_url : String := DEFAULT_URL

/-- The single GET request issued at line 230:
client.get with the url, the headers and the built params. -/
def mk_request (parse : FilterExpr → Except String (List (String × String)))
    (api_key user_agent query : String) (options : SearchOptions) : Request :=
  { method := "GET"
    url := get_url
    headers := request_headers api_key user_agent
    params := (build_request_parameters parse query options).1 }

/-- Source method _inner_search (lines 211-241): validate the options
first, build the request, issue it exactly once, and wrap any transport
failure in a ServiceInvalidRequestError whose cause is the original
exception. The transport (httpx AsyncClient) is the environment net; the
second component of the result is the list of requests actually issued. -/
def inner_search (parse : FilterExpr → Except String (List (String × String)))
    (api_key user_agent : String) (net : Request → NetworkOutcome)
    (query : String) (options : SearchOptions) :
    Except ServiceError BraveSearchResponse × List Request :=
  match validate_options options with
  | .error e => (.error e, [])
  | .ok _ =>
    let req := mk_request parse api_key user_agent query options
    match net req with
    | .success body => (.ok body, [req])
    | .httpStatusError msg =>
        (.error (.invalidRequest "Failed to get search results."
            (some (.httpStatus msg))), [req])
    | .requestError msg =>
        (.error (.invalidRequest
            "A client error occurred while getting search results."
            (some (.request msg))), [req])
    | .otherError msg =>
        (.error (.invalidRequest
            "An unexpected error occurred while getting search results."
            (some (.other msg))), [req])

/-- The web-page results of a response, empty when the web section is
absent. -/
def web_page_results (response : BraveSearchResponse) : List BraveWebPage :=
  match response.web_pages with
  | none => []
  | some web_pages => web_pages.results

/-- Source method _get_result_strings (lines 169-173), the async generator
as the list it yields. Python web_page.description or "" coincides with
Option.getD with default "" because the only falsy string is "". -/
def get_result_strings (response : BraveSearchResponse) : List String :=
  match response.web_pages with
  | none => []
  | some web_pages =>
      web_pages.results.map (fun web_page => web_page.description.getD "")

/-- The framework record TextSearchResult as the connector fills it
(lines 179-183). -/
structure TextSearchResult where
  name : Option String := none
  value : Option String := none
  link : Option String := none
  deriving DecidableEq

/-- Source method _get_text_search_results (lines 175-183). -/
def get_text_search_results (response : BraveSearchResponse) :
    List TextSearchResult :=
  match response.web_pages with
  | none => []
  | some web_pages =>
      web_pages.results.map (fun web_page =>
        { name := web_page.title
          value := web_page.description
          link := web_page.url })

/-- Source method _get_brave_web_pages (lines 185-189). -/
def get_brave_web_pages (response : BraveSearchResponse) :
    List BraveWebPage :=
  match response.web_pages with
  | none => []
  | some web_pages => web_pages.results

/-- Source method _get_metadata (lines 191-198): lookups in the
query-context dict, with the altered entry defaulting to the empty
string. -/
def get_metadata (response : BraveSearchResponse) :
    List (String × Option String) :=
  [("original", dict_get response.query_context "original"),
   ("altered", some ((dict_get response.query_context "altered").getD "")),
   ("spellcheck_off", dict_get response.query_context "spellcheck_off"),
   ("show_strict_warning", dict_get response.query_context "show_strict_warning"),
   ("country", dict_get response.query_context "country")]

/-- Source method _get_total_count (lines 200-203): the result count when
include_total_count is set and the web section is present, else none. -/
def get_total_count (response : BraveSearchResponse)
    (options : SearchOptions) : Option Nat :=
  match options.include_total_count, response.web_pages with
  | true, some web_pages => some web_pages.results.length
  | _, _ => none

/-- The output_type argument of search (line 149): the type str, the type
TextSearchResult, the literal Any, or any other type value. -/
inductive OutputType
  | str
  | textSearchResult
  | anyLiteral
  | other (name : String)
  deriving DecidableEq

/-- The shaped results of one search call, one constructor per output
shape. -/
inductive SearchOutput
  | strings (items : List String)
  | records (items : List TextSearchResult)
  | pages (items : List BraveWebPage)
  deriving DecidableEq

/-- The framework KernelSearchResults as the connector fills it
(lines 159-167). -/
structure KernelSearchResults where
  results : SearchOutput
  total_count : Option Nat
  metadata : List (String × Option String)
  deriving DecidableEq

/-- Source method search (lines 145-167): run the inner search, then shape
the results by output_type. The source compares output_type by identity
against str and TextSearchResult; everything else, including the literal
Any, falls through to the raw brave web pages. -/
def search (parse : FilterExpr → Except String (List (String × String)))
    (api_key user_agent : String) (net : Request → NetworkOutcome)
    (query : String) (output_type : OutputType) (options : SearchOptions) :
    Except ServiceError KernelSearchResults × List Request :=
  match inner_search parse api_key user_agent net query options with
  | (.error e, reqs) => (.error e, reqs)
  | (.ok response, reqs) =>
      (.ok
        { results :=
            match output_type with
            | .str => .strings (get_result_strings response)
            | .textSearchResult => .records (get_text_search_results response)
            | _ => .pages (get_brave_web_pages response)
          total_count := get_total_count response options
          metadata := get_metadata response },
       reqs)

/-- The parse results of the filters that parse successfully, in order. -/
def parse_successes (parse : FilterExpr → Except String (List (String × String)))
    (fs : List FilterExpr) : List (List (String × String)) :=
  fs.filterMap (fun f =>
    match parse f with
    | .ok ds => some ds
    | .error _ => none)

/-- The filters that fail to parse, paired with their error texts, in
order. -/
def parse_failures (parse : FilterExpr → Except String (List (String × String)))
    (fs : List FilterExpr) : List (FilterExpr × String) :=
  fs.filterMap (fun f =>
    match parse f with
    | .ok _ => none
    | .error e => some (f, e))

/-- Fold successive pair lists into a parameter dict, left to right. -/
def fold_pairs (params : List (String × ParamValue))
    (dss : List (List (String × String))) : List (String × ParamValue) :=
  dss.foldl (fun acc ds => ds.foldl (fun a d => dict_set a d.1 (.str d.2)) acc) params

/-! Helper lemmas shared by several developments. -/

/-- Dict lookup after dict assignment of the same key returns the assigned
value, whether the key was present before or not. -/
theorem find?_map_overwrite {α : Type} (d : List (String × α)) (k : String)
    (v : α) (hd : d.any (fun p => p.1 == k) = true) :
    (d.map (fun p => if p.1 == k then (k, v) else p)).find?
      (fun p => p.1 == k) = some (k, v) := by
  induction d with
  | nil => simp at hd
  | cons p d ih =>
    cases hp : p.1 == k with
    | true =>
      simp only [List.map_cons, hp, if_true]
      exact List.find?_cons_of_pos _ (by simp)
    | false =>
      simp only [List.map_cons, hp, if_false]
      rw [List.find?_cons_of_neg _ (by simp [hp])]
      apply ih
      rcases List.any_eq_true.mp hd with ⟨x, hx, hxk⟩
      rcases List.mem_cons.mp hx with h1 | h1
      · rw [h1] at hxk; rw [hxk] at hp; exact absurd hp (by simp)
      · exact List.any_eq_true.mpr ⟨x, h1, hxk⟩

/-- Dict lookup after dict assignment of the same key returns the assigned
value, whether the key was present before or not. -/
theorem dict_get_dict_set_self {α : Type} (d : List (String × α)) (k : String)
    (v : α) : dict_get (dict_set d k v) k = some v := by
  unfold dict_set
  by_cases hd : d.any (fun p => p.1 == k) = true
  · rw [if_pos hd]
    unfold dict_get
    rw [find?_map_overwrite d k v hd]
    rfl
  · rw [if_neg hd]
    unfold dict_get
    rw [List.find?_append]
    have h1 : d.find? (fun p => p.1 == k) = none := by
      rw [List.find?_eq_none]
      intro x hx hxk
      exact hd (List.any_eq_true.mpr ⟨x, hx, hxk⟩)
    rw [h1]
    simp

/-- The filter loop's fold equals: fold the successful parses into the
dict, and append one warning per failed parse, in order. -/
theorem assemble_foldl_eq
    (parse : FilterExpr → Except String (List (String × String)))
    (fs : List FilterExpr)
    (acc : List (String × ParamValue) × List (FilterExpr × String)) :
    fs.foldl (assemble_step parse) acc =
      (fold_pairs acc.1 (parse_successes parse fs),
       acc.2 ++ parse_failures parse fs) := by
  induction fs generalizing acc with
  | nil => simp [fold_pairs, parse_successes, parse_failures]
  | cons f fs ih =>
    cases h : parse f with
    | ok ds =>
      simp only [List.foldl_cons, ih, assemble_step, h]
      simp [parse_successes, parse_failures, fold_pairs, h]
    | error e =>
      simp only [List.foldl_cons, ih, assemble_step, h]
      simp [parse_successes, parse_failures, fold_pairs, h]

/-- The parameter builder is the filter-list fold of the per-filter step,
starting from the base parameters; the truthiness short-cut of line 268
coincides with folding the empty list. -/
theorem build_request_parameters_eq_foldl
    (parse : FilterExpr → Except String (List (String × String)))
    (query : String) (options : SearchOptions) :
    build_request_parameters parse query options =
      (filter_list options.filter).foldl (assemble_step parse)
        (base_params query options, []) := by
  cases hf : options.filter with
  | none => simp [build_request_parameters, filter_falsy, filter_list, hf]
  | one f => simp [build_request_parameters, filter_falsy, filter_list, hf]
  | many fs =>
    cases fs with
    | nil => simp [build_request_parameters, filter_falsy, filter_list, hf]
    | cons g gs =>
      simp [build_request_parameters, filter_falsy, filter_list, hf]

/-- A sample options value with one unparsable and one valid filter
expression, used to witness concrete evaluations. -/
def sample_filter_options : SearchOptions :=
  { top := 5, skip := 0, include_total_count := false,
    filter := .many [.unsupported "or", .eq "country" (.str "DE")] }

/-- C1: when parsing one filter expression fails, the assembler logs one
warning for exactly that expression and continues with the rest: the
assembled parameter dict equals the fold of the successfully parsed
expressions' pairs over the base parameters, the logged warnings are
exactly the failed expressions in order, and with valid options the
search still issues its single request whatever filters failed, so a bad
filter never aborts the overall search. -/
theorem filter_failures_are_recovered
    (parse : FilterExpr → Except String (List (String × String)))
    (api_key user_agent query : String) (options : SearchOptions)
    (net : Request → NetworkOutcome)
    (hvalid : validate_options options = .ok ()) :
    (build_request_parameters parse query options).1 =
      fold_pairs (base_params query options)
        (parse_successes parse (filter_list options.filter))
    ∧ (build_request_parameters parse query options).2 =
      parse_failures parse (filter_list options.filter)
    ∧ (inner_search parse api_key user_agent net query options).2 =
      [mk_request parse api_key user_agent query options] := by
  refine ⟨?_, ?_, ?_⟩
  · rw [build_request_parameters_eq_foldl, assemble_foldl_eq]
  · rw [build_request_parameters_eq_foldl, assemble_foldl_eq]
    simp
  · unfold inner_search
    rw [hvalid]
    cases hn : net (mk_request parse api_key user_agent query options) <;>
      simp [hn]

/-- Witness for C1 at a concrete input: default pagination, one
unsupported filter followed by one valid filter. -/
theorem filter_failures_are_recovered_witness :
    (build_request_parameters parse_filter_lambda "cats" sample_filter_options).1 =
      fold_pairs (base_params "cats" sample_filter_options)
        (parse_successes parse_filter_lambda (filter_list sample_filter_options.filter))
    ∧ (build_request_parameters parse_filter_lambda "cats" sample_filter_options).2 =
      parse_failures parse_filter_lambda (filter_list sample_filter_options.filter)
    ∧ (inner_search parse_filter_lambda "key" "agent"
        (fun _ => .success {}) "cats" sample_filter_options).2 =
      [mk_request parse_filter_lambda "key" "agent" "cats" sample_filter_options] :=
  filter_failures_are_recovered parse_filter_lambda "key" "agent" "cats"
    sample_filter_options (fun _ => .success {}) rfl

/-- C2: validation accepts exactly top between 1 and 20 and skip between
0 and 9; each out-of-range condition raises the corresponding
invalid-request error, following the source's check order; and when
validation fails the inner search returns that very error with no request
issued and no dependence on the parse routine or the transport, so the
failure happens before any filter parsing or network work. -/
theorem validate_options_bounds (options : SearchOptions) :
    (1 ≤ options.top → options.top ≤ 20 → 0 ≤ options.skip → options.skip ≤ 9 →
      validate_options options = .ok ())
    ∧ (options.top ≤ 0 →
        validate_options options =
          .error (.invalidRequest "count value must be greater than 0." none))
    ∧ (¬ options.top ≤ 0 → 21 ≤ options.top →
        validate_options options =
          .error (.invalidRequest "count value must be less than 21." none))
    ∧ (¬ options.top ≤ 0 → ¬ 21 ≤ options.top → options.skip < 0 →
        validate_options options =
          .error (.invalidRequest "offset must be greater than or equal to 0." none))
    ∧ (¬ options.top ≤ 0 → ¬ 21 ≤ options.top → ¬ options.skip < 0 →
        9 < options.skip →
        validate_options options =
          .error (.invalidRequest "offset must be less than 10." none))
    ∧ (∀ e, validate_options options = .error e →
        ∀ parse api_key user_agent net query,
          inner_search parse api_key user_agent net query options =
            (.error e, [])) := by
  refine ⟨?_, ?_, ?_, ?_, ?_, ?_⟩
  · intro h1 h2 h3 h4
    unfold validate_options
    rw [if_neg (by omega), if_neg (by omega), if_neg (by omega), if_neg (by omega)]
  · intro h
    unfold validate_options
    rw [if_pos h]
  · intro h1 h2
    unfold validate_options
    rw [if_neg h1, if_pos h2]
  · intro h1 h2 h3
    unfold validate_options
    rw [if_neg h1, if_neg h2, if_pos h3]
  · intro h1 h2 h3 h4
    unfold validate_options
    rw [if_neg h1, if_neg h2, if_neg h3, if_pos h4]
  · intro e he parse api_key user_agent net query
    unfold inner_search
    rw [he]

/-- Witness for C2 at concrete inputs: top 5 with skip 0 passes, top 0
fails with the count error, and the failing options make the inner search
return that error with no request issued. -/
theorem validate_options_bounds_witness :
    validate_options { top := 5, skip := 0 } = .ok ()
    ∧ validate_options { top := 0, skip := 0 } =
        .error (.invalidRequest "count value must be greater than 0." none)
    ∧ inner_search parse_filter_lambda "key" "agent" (fun _ => .success {})
        "cats" { top := 0, skip := 0 } =
        (.error (.invalidRequest "count value must be greater than 0." none), []) :=
  ⟨(validate_options_bounds _).1 (by decide) (by decide) (by decide) (by decide),
   (validate_options_bounds _).2.1 (by decide),
   (validate_options_bounds _).2.2.2.2.2 _
     ((validate_options_bounds _).2.1 (by decide))
     parse_filter_lambda "key" "agent" (fun _ => .success {}) "cats"⟩

/-- A sample response with two web-page results, the second of which has
no description. -/
def sample_response : BraveSearchResponse :=
  { web_pages := some
      { results :=
          [{ title := some "t", url := some "u", description := some "d" },
           { title := some "t2" }] } }

/-- C3: the total count is the number of web-page results exactly when
include_total_count was requested and the web-page section of the response
is present ("results exist", which covers N results for every N including
zero); otherwise it is absent. -/
theorem total_count_iff (response : BraveSearchResponse)
    (options : SearchOptions) (n : Nat) :
    (get_total_count response options = some n ↔
      options.include_total_count = true ∧
        ∃ web_pages, response.web_pages = some web_pages ∧
          web_pages.results.length = n)
    ∧ (options.include_total_count = false →
        get_total_count response options = none) := by
  constructor
  · cases hi : options.include_total_count with
    | false =>
      cases hw : response.web_pages <;>
        simp [get_total_count, hi, hw]
    | true =>
      cases hw : response.web_pages with
      | none => simp [get_total_count, hi, hw]
      | some web_pages =>
        simp [get_total_count, hi, hw]
  · intro hi
    cases hw : response.web_pages <;> simp [get_total_count, hi, hw]

/-- Witness for C3 at a concrete input: two results give total count 2
when requested, and no total count when not requested. -/
theorem total_count_iff_witness :
    get_total_count sample_response
        { top := 5, skip := 0, include_total_count := true } = some 2
    ∧ get_total_count sample_response
        { top := 5, skip := 0, include_total_count := false } = none :=
  ⟨(total_count_iff sample_response
      { top := 5, skip := 0, include_total_count := true } 2).1.mpr
      ⟨rfl, _, rfl, rfl⟩,
   (total_count_iff sample_response
      { top := 5, skip := 0, include_total_count := false } 0).2 rfl⟩

/-- C4: a membership comparison over an allow-listed field parses to one
pair per list element in left-to-right order; concretely, country in the
list a, b yields the pairs country to a then country to b, the assembled
parameter dict maps country to b, and in general a later dict assignment
to the same key overwrites an earlier one. -/
theorem membership_pairs_merge_last (field : String) (values : List FilterLit)
    (hfield : QUERY_PARAMETERS.contains field = true) :
    parse_filter_lambda (.mem field values) =
      .ok (values.map (fun v => (field, lit_str v)))
    ∧ parse_filter_lambda (.mem "country" [.str "a", .str "b"]) =
      .ok [("country", "a"), ("country", "b")]
    ∧ dict_get (build_request_parameters parse_filter_lambda "x"
        { top := 5, skip := 0, include_total_count := false,
          filter := .one (.mem "country" [.str "a", .str "b"]) }).1 "country" =
      some (.str "b")
    ∧ ∀ (d : List (String × ParamValue)) (k : String) (v₁ v₂ : ParamValue),
        dict_get (dict_set (dict_set d k v₁) k v₂) k = some v₂ := by
  refine ⟨?_, by rfl, by rfl, ?_⟩
  · unfold parse_filter_lambda visit_expr
    rw [if_pos hfield]
  · intro d k v₁ v₂
    exact dict_get_dict_set_self (dict_set d k v₁) k v₂

/-- Witness for C4 at a concrete input: the allow-listed field country
with a single-element list. -/
theorem membership_pairs_merge_last_witness :
    parse_filter_lambda (.mem "country" [.str "DE"]) = .ok [("country", "DE")] :=
  (membership_pairs_merge_last "country" [.str "DE"] (by decide)).1

/-- C5: when the response has no web-page section, all three output
shapes are empty lists rather than errors, and the total count is absent
for every options value, include_total_count included. -/
theorem no_web_pages_all_empty (response : BraveSearchResponse)
    (h : response.web_pages = none) :
    get_result_strings response = []
    ∧ get_text_search_results response = []
    ∧ get_brave_web_pages response = []
    ∧ ∀ options, get_total_count response options = none := by
  refine ⟨?_, ?_, ?_, ?_⟩
  · simp [get_result_strings, h]
  · simp [get_text_search_results, h]
  · simp [get_brave_web_pages, h]
  · intro options
    cases hi : options.include_total_count <;> simp [get_total_count, hi, h]

/-- Witness for C5 at a concrete input: the default response, whose
web-page section is absent. -/
theorem no_web_pages_all_empty_witness :
    get_result_strings {} = []
    ∧ get_text_search_results {} = []
    ∧ get_brave_web_pages {} = []
    ∧ get_total_count {} { top := 5, skip := 0, include_total_count := true } = none :=
  ⟨(no_web_pages_all_empty {} rfl).1,
   (no_web_pages_all_empty {} rfl).2.1,
   (no_web_pages_all_empty {} rfl).2.2.1,
   (no_web_pages_all_empty {} rfl).2.2.2
     { top := 5, skip := 0, include_total_count := true }⟩

/-- C6: with an absent or empty filter, the built request parameters are
exactly q (Python query or the empty string), count and offset, no other
keys and no warnings; concretely, query cats with top 5 and skip 0 yields
exactly q cats, count 5, offset 0. -/
theorem base_parameters_exact
    (parse : FilterExpr → Except String (List (String × String)))
    (query : String) (top skip : Int) (itc : Bool) :
    build_request_parameters parse query
        { top := top, skip := skip, include_total_count := itc,
          filter := .none } =
      ([("q", .str (if query == "" then "" else query)),
        ("count", .int top), ("offset", .int skip)], [])
    ∧ build_request_parameters parse query
        { top := top, skip := skip, include_total_count := itc,
          filter := .many [] } =
      ([("q", .str (if query == "" then "" else query)),
        ("count", .int top), ("offset", .int skip)], [])
    ∧ build_request_parameters parse_filter_lambda "cats"
        { top := 5, skip := 0, include_total_count := false,
          filter := .none } =
      ([("q", .str "cats"), ("count", .int 5), ("offset", .int 0)], []) := by
  refine ⟨?_, ?_, by rfl⟩
  · simp [build_request_parameters, filter_falsy, base_params]
  · simp [build_request_parameters, filter_falsy, base_params]

/-- C7: with valid options, each of the three transport failure classes is
wrapped into a single ServiceInvalidRequestError carrying the original
exception as its cause, and exactly one request is issued, so there is no
retry and no transport failure escapes unwrapped. -/
theorem transport_errors_wrapped
    (parse : FilterExpr → Except String (List (String × String)))
    (api_key user_agent query : String) (options : SearchOptions)
    (net : Request → NetworkOutcome) (msg : String)
    (hvalid : validate_options options = .ok ()) :
    (net (mk_request parse api_key user_agent query options) = .httpStatusError msg →
      inner_search parse api_key user_agent net query options =
        (.error (.invalidRequest "Failed to get search results."
            (some (.httpStatus msg))),
         [mk_request parse api_key user_agent query options]))
    ∧ (net (mk_request parse api_key user_agent query options) = .requestError msg →
      inner_search parse api_key user_agent net query options =
        (.error (.invalidRequest
            "A client error occurred while getting search results."
            (some (.request msg))),
         [mk_request parse api_key user_agent query options]))
    ∧ (net (mk_request parse api_key user_agent query options) = .otherError msg →
      inner_search parse api_key user_agent net query options =
        (.error (.invalidRequest
            "An unexpected error occurred while getting search results."
            (some (.other msg))),
         [mk_request parse api_key user_agent query options])) := by
  refine ⟨?_, ?_, ?_⟩ <;>
    (intro hn
     unfold inner_search
     rw [hvalid]
     simp [hn])

/-- Witness for C7 at a concrete input: a transport returning an HTTP
status failure. -/
theorem transport_errors_wrapped_witness :
    inner_search parse_filter_lambda "key" "agent"
        (fun _ => .httpStatusError "500") "cats" { top := 5, skip := 0 } =
      (.error (.invalidRequest "Failed to get search results."
          (some (.httpStatus "500"))),
       [mk_request parse_filter_lambda "key" "agent" "cats"
          { top := 5, skip := 0 }]) :=
  (transport_errors_wrapped parse_filter_lambda "key" "agent" "cats"
      { top := 5, skip := 0 } (fun _ => .httpStatusError "500") "500" rfl).1 rfl

/-- C8: the outbound request is a GET to the fixed web-search URL with the
configured key under X-Subscription-Token, but the second header of the
headers dict is literally named user_agent, with an underscore, so the
request carries no header named user-agent: the code diverges from the
specified header name at this point. -/
theorem outbound_header_names :
    (mk_request parse_filter_lambda "key" "agent" "cats"
        { top := 5, skip := 0 }).method = "GET"
    ∧ (mk_request parse_filter_lambda "key" "agent" "cats"
        { top := 5, skip := 0 }).url = DEFAULT_URL
    ∧ (mk_request parse_filter_lambda "key" "agent" "cats"
        { top := 5, skip := 0 }).headers =
        [("X-Subscription-Token", "key"), ("user_agent", "agent")]
    ∧ ((mk_request parse_filter_lambda "key" "agent" "cats"
        { top := 5, skip := 0 }).headers.map Prod.fst).contains "user-agent" =
        false :=
  ⟨rfl, rfl, rfl, by decide⟩

/-- C9: for every output type other than str and TextSearchResult,
including the literal Any and any unrecognized type, a successful search
returns the raw web-page records, and no error is raised by the
dispatch. -/
theorem raw_pages_fallback
    (parse : FilterExpr → Except String (List (String × String)))
    (api_key user_agent query : String) (options : SearchOptions)
    (response : BraveSearchResponse) (output_type : OutputType)
    (h1 : output_type ≠ OutputType.str)
    (h2 : output_type ≠ OutputType.textSearchResult)
    (hvalid : validate_options options = .ok ()) :
    (search parse api_key user_agent (fun _ => .success response) query
        output_type options).1 =
      .ok { results := .pages (get_brave_web_pages response)
            total_count := get_total_count response options
            metadata := get_metadata response } := by
  unfold search inner_search
  rw [hvalid]
  cases output_type with
  | str => exact absurd rfl h1
  | textSearchResult => exact absurd rfl h2
  | anyLiteral => rfl
  | other name => rfl

/-- Witness for C9 at a concrete input: the literal Any as output type. -/
theorem raw_pages_fallback_witness :
    (search parse_filter_lambda "key" "agent"
        (fun _ => .success sample_response) "cats" OutputType.anyLiteral
        { top := 5, skip := 0 }).1 =
      .ok { results := .pages (get_brave_web_pages sample_response)
            total_count := get_total_count sample_response { top := 5, skip := 0 }
            metadata := get_metadata sample_response } :=
  raw_pages_fallback parse_filter_lambda "key" "agent" "cats"
    { top := 5, skip := 0 } sample_response OutputType.anyLiteral
    (by decide) (by decide) rfl

/-- C10: the plain-string output has exactly one element per web-page
result, and a result whose description is absent contributes the empty
string; the element type is String, so no element is null. -/
theorem result_strings_default_empty (response : BraveSearchResponse) :
    (get_result_strings response).length = (web_page_results response).length
    ∧ ∀ (i : Nat) (web_page : BraveWebPage),
        (web_page_results response)[i]? = some web_page →
        web_page.description = none →
        (get_result_strings response)[i]? = some "" := by
  cases hw : response.web_pages with
  | none =>
    refine ⟨by simp [get_result_strings, web_page_results, hw], ?_⟩
    intro i web_page hi
    simp [web_page_results, hw] at hi
  | some web_pages =>
    refine ⟨by simp [get_result_strings, web_page_results, hw], ?_⟩
    intro i web_page hi hdesc
    simp only [get_result_strings, hw]
    rw [List.getElem?_map]
    simp only [web_page_results, hw] at hi
    rw [hi]
    simp [hdesc]

/-- Witness for C10 at a concrete input: the second sample result has no
description and yields the empty string. -/
theorem result_strings_default_empty_witness :
    (get_result_strings sample_response).length =
      (web_page_results sample_response).length
    ∧ (get_result_strings sample_response)[1]? = some "" :=
  ⟨(result_strings_default_empty sample_response).1,
   (result_strings_default_empty sample_response).2 1 { title := some "t2" }
     rfl rfl⟩

end BraveConnector
